import Mathlib

/-!
# Verification of the javis email-thread monitoring core

Shallow embedding of the reply-watcher subsystem of the `javis` repository
(`javis/tools/email_monitor_task.py`, `javis/tools/email_base.py`,
`javis/migrations/001_create_monitored_threads.py`,
`javis/models/monitored_thread.py`).

Modelling conventions:
* The `monitored_threads` Postgres table is a `List MonitoredThread`; each SQL
  statement of the source becomes a pure function on that list.
* Database timestamps (`expiry_time`, `CURRENT_TIMESTAMP`, `created_at`,
  `updated_at`) are abstract ticks (`Nat`); the SQL comparisons `>` / `<=`
  become the corresponding `Nat` comparisons.
* Wall-clock datetimes used for meeting scheduling are a `DateTime` record of
  an epoch day number plus hour and minute (`datetime` + `timedelta` arithmetic
  of the source becomes arithmetic on those fields).
* Side-effecting gateway calls (the LLM classification call, Gmail send,
  Calendar insert, Telegram notification, and the two store mutations done
  during a cycle) are recorded in an `Action` trace, in call order.
* The LLM classifier plus the JSON extraction/parsing of
  `process_candidate_reply` is a parameter `classify : String → Option Analysis`;
  `none` models the path where `json.loads`/key access raises (malformed
  classifier output).
* The calendar gateway outcome is a parameter `calendar_ok : Bool`
  (`false` models `create_calendar_event` returning an `error` key).
* The Gmail send gateway is a parameter `send : String → String → Option String`
  mapping recipient and subject to the provider-assigned thread id of the new
  conversation (`none` models a send failure caught inside `send_email`).
  `send_email` called without a `thread_id` — which is how the watcher's
  follow-up and confirmation emails call it — registers that new thread in
  the `monitored_threads` table on success (`gmail.py`, lines 206-212), so
  processing a reply can insert a row; the table is threaded through
  `process_candidate_reply` accordingly.
* A Python exception that is caught by a surrounding `try` is modelled by the
  value the `except` branch returns; exceptions that escape a function are
  modelled with `Option` results.
-/

namespace Javis

/-- Row of the `monitored_threads` table
(migration `001_create_monitored_threads.py` and model `MonitoredThread`). -/
structure MonitoredThread where
  thread_id : String
  candidate_email : String
  hr_telegram_id : String
  expiry_time : Nat
  last_message_id : Option String
  created_at : Nat
  updated_at : Nat
deriving DecidableEq, Repr

/-- Wall-clock datetime: days since epoch (1970-01-01, a Thursday), hour, minute. -/
structure DateTime where
  day : Nat
  hour : Nat
  minute : Nat
deriving DecidableEq, Repr

/-- Addition of `h` hours, `dt + timedelta(hours=h)` (minute unchanged, hour rolls into the day). -/
def addHours (dt : DateTime) (h : Nat) : DateTime :=
  { day := dt.day + (dt.hour + h) / 24, hour := (dt.hour + h) % 24, minute := dt.minute }

/-- Parsed classifier output: the `analysis` dict produced by
`json.loads` in `process_candidate_reply` (spec name: `Decision`). -/
structure Analysis where
  agrees_to_schedule : Bool
  confirm_datetime : Option DateTime
  confidence_score : ℚ
  suggested_action : String
  explanation : String
deriving DecidableEq, Repr

/-- One message of a Gmail thread, after body extraction:
its Gmail id and its extracted plain-text content. -/
structure Message where
  id : String
  content : String
deriving DecidableEq, Repr

/-- External calls made while processing, in call order. -/
inductive Action where
  | classify (text : String)
  | createEvent (summary : String) (start finish : DateTime) (attendees : List String)
  | sendEmail (dest subject : String)
  | notifyTelegram (recipient : String)
  | updateMarker (thread_id message_id : String)
  | removeThread (thread_id : String)
deriving DecidableEq, Repr

/-- Is this action the calendar-event creation call? -/
def Action.isCreateEvent : Action → Bool
  | .createEvent _ _ _ _ => true
  | _ => false

/-- Is this action the Telegram notification call? -/
def Action.isNotify : Action → Bool
  | .notifyTelegram _ => true
  | _ => false

/-- Is this action the store's remove-thread call? -/
def Action.isRemoveThread : Action → Bool
  | .removeThread _ => true
  | _ => false

/-! ## ThreadStore operations (`email_monitor_task.py`) -/

/-- Embeds `add_thread_to_monitor`: `INSERT ... ON CONFLICT (thread_id) DO UPDATE SET
candidate_email, hr_telegram_id, expiry_time, updated_at = CURRENT_TIMESTAMP`.
The INSERT lists no `last_message_id`, so a fresh row gets the column
default `NULL`; the UPDATE branch does not touch `last_message_id` or
`created_at`.  `expiry_time` is `now + expiry_hours` in the source; here the
caller passes the computed expiry. -/
def add_thread_to_monitor (thread_id candidate_email hr_telegram_id : String)
    (expiry_time now : Nat) (db : List MonitoredThread) : List MonitoredThread :=
  if db.any (fun t => t.thread_id = thread_id) then
    db.map (fun t =>
      if t.thread_id = thread_id then
        { t with candidate_email := candidate_email,
                 hr_telegram_id := hr_telegram_id,
                 expiry_time := expiry_time,
                 updated_at := now }
      else t)
  else
    db ++ [{ thread_id := thread_id, candidate_email := candidate_email,
             hr_telegram_id := hr_telegram_id, expiry_time := expiry_time,
             last_message_id := none, created_at := now, updated_at := now }]

/-- Embeds `remove_thread_from_monitor`: `DELETE FROM monitored_threads WHERE thread_id = $1`. -/
def remove_thread_from_monitor (thread_id : String) (db : List MonitoredThread) :
    List MonitoredThread :=
  db.filter (fun t => !(t.thread_id = thread_id : Bool))

/-- Embeds `get_active_threads`: `SELECT * FROM monitored_threads WHERE expiry_time > CURRENT_TIMESTAMP`. -/
def get_active_threads (now : Nat) (db : List MonitoredThread) : List MonitoredThread :=
  db.filter (fun t => decide (now < t.expiry_time))

/-- Embeds `update_thread_message_id`: `UPDATE monitored_threads SET last_message_id = $2,
updated_at = CURRENT_TIMESTAMP WHERE thread_id = $1`. -/
def update_thread_message_id (thread_id message_id : String) (now : Nat)
    (db : List MonitoredThread) : List MonitoredThread :=
  db.map (fun t =>
    if t.thread_id = thread_id then
      { t with last_message_id := some message_id, updated_at := now }
    else t)

/-- Embeds `remove_expired_threads`: `DELETE FROM monitored_threads WHERE expiry_time <= CURRENT_TIMESTAMP`. -/
def remove_expired_threads (now : Nat) (db : List MonitoredThread) : List MonitoredThread :=
  db.filter (fun t => !(decide (t.expiry_time ≤ now)))

/-- Embeds `send_email` (`gmail.py`) as the watcher calls it — without a
`thread_id`, so the message starts a brand-new Gmail conversation.  The send
gateway outcome is `send to_email subject`: on success (`some new_thread_id`)
the function registers the new conversation with
`add_thread_to_monitor(new_thread_id, to_email)` — defaults
`hr_telegram_id = "5318643303"` and a 48-hour expiry — before returning; on
failure (`none`, the caught exception path) no registration happens.  Returns
the table after the call. -/
def send_email (send : String → String → Option String) (to_email subject : String)
    (ts : Nat) (db : List MonitoredThread) : List MonitoredThread :=
  match send to_email subject with
  | some new_thread_id =>
    add_thread_to_monitor new_thread_id to_email ("5318643303") (ts + 48) ts db
  | none => db

/-! ## Reply checking and processing -/

/-- Embeds `check_email_replies` (thread fetch reduced to its message list): with at
most one message there is no reply (`has_reply = False`, modelled `none`);
otherwise the most recent message `messages[-1]` is fetched and its extracted
content returned.  Only this last message is ever examined. -/
def check_email_replies (messages : List Message) : Option Message :=
  if messages.length ≤ 1 then none else messages.getLast?

/-- Subject chosen by `send_followup_email` from `analysis["suggested_action"]`. -/
def followup_subject (a : Analysis) : String :=
  if a.suggested_action = "request_clarification" then
    "Interview Scheduling - Clarification Needed"
  else
    "Thank You for Your Response"

/-- Result dict of `process_candidate_reply`, plus the trace of external calls
it made and the `monitored_threads` table after the nested store effects (the
new-thread registration performed inside `send_email`). -/
structure ProcessResult where
  status : String
  action : Option String
  calls : List Action
  db : List MonitoredThread
deriving DecidableEq, Repr

/-- The default meeting time when no datetime was extracted:
`datetime.now() + timedelta(days=1)` then `replace(hour=10, minute=0, ...)`. -/
def default_meeting_time (now : DateTime) : DateTime :=
  { day := now.day + 1, hour := 10, minute := 0 }

/-- Meeting-time resolution of `process_candidate_reply`: the extracted
`confirm_datetime` when present (the `strptime` branch), else the default. -/
def resolved_meeting_time (analysis : Analysis) (now : DateTime) : DateTime :=
  match analysis.confirm_datetime with
  | some dt => dt
  | none => default_meeting_time now

/-- Embeds `process_candidate_reply`.  `classify` bundles `analyze_candidate_response`
together with the fenced-JSON extraction and `json.loads`/field access;
`classify reply_content = none` is the malformed-output path, where the raised
exception is caught by the function's own `try`/`except`, which only logs and
returns `{"status": "error"}` — no email, notification or store effect.  On a
confident agreement the meeting time is the extracted datetime, else
`default_meeting_time`; the event always ends one hour after it starts.
`calendar_ok = false` models `create_calendar_event` returning an `error`
key: the function then returns an error status without sending the
confirmation email.  In every other case the reply is answered with a
follow-up email and the HR contact is notified on Telegram.  Each email goes
through `send_email` with no `thread_id`, so a successful send also registers
the new acknowledgement conversation in the table (hence the `db` field of
the result). -/
def process_candidate_reply (reply_content candidate_email hr_telegram_id : String)
    (classify : String → Option Analysis) (calendar_ok : Bool)
    (send : String → String → Option String) (now : DateTime) (ts : Nat)
    (db : List MonitoredThread) : ProcessResult :=
  match classify reply_content with
  | none =>
    { status := "error", action := none, calls := [.classify reply_content], db := db }
  | some analysis =>
    if analysis.agrees_to_schedule ∧ mkRat 1 2 ≤ analysis.confidence_score then
      let meeting_time := resolved_meeting_time analysis now
      let end_time := addHours meeting_time 1
      let create := Action.createEvent ("Interview with " ++ candidate_email)
        meeting_time end_time [candidate_email]
      if calendar_ok then
        { status := "success", action := some ("scheduled"),
          calls := [.classify reply_content, create,
                    .sendEmail candidate_email ("Interview Confirmation")],
          db := send_email send candidate_email ("Interview Confirmation") ts db }
      else
        { status := "error", action := none,
          calls := [.classify reply_content, create], db := db }
    else
      { status := "success", action := some ("notified_hr"),
        calls := [.classify reply_content,
                  .sendEmail candidate_email (followup_subject analysis),
                  .notifyTelegram hr_telegram_id],
        db := send_email send candidate_email (followup_subject analysis) ts db }

/-! ## The per-cycle loop (`check_threads`) -/

/-- Body of the per-thread loop of `check_threads` for one thread: check for a
reply; if there is one and its id differs from the stored `last_message_id`,
process it and then — unconditionally, whatever `process_candidate_reply`
returned — advance the stored marker to the reply's id (the `UPDATE` runs on
the table as `process_candidate_reply` left it, registration included).
`mailbox` maps a thread id to its current Gmail message list, `ts` is the
database clock.  Returns the updated table and the call trace. -/
def process_thread (mailbox : String → List Message)
    (classify : String → Option Analysis) (calendar_ok : Bool)
    (send : String → String → Option String)
    (now : DateTime) (ts : Nat) (thread : MonitoredThread)
    (db : List MonitoredThread) : List MonitoredThread × List Action :=
  match check_email_replies (mailbox thread.thread_id) with
  | none => (db, [])
  | some latest =>
    if thread.last_message_id = some latest.id then (db, [])
    else
      let r := process_candidate_reply latest.content thread.candidate_email
        thread.hr_telegram_id classify calendar_ok send now ts db
      (update_thread_message_id thread.thread_id latest.id ts r.db,
       r.calls ++ [.updateMarker thread.thread_id latest.id])

/-- The calls `process_thread` makes for one thread (they do not depend on the
table contents, only on the thread row and the mailbox). -/
def thread_actions (mailbox : String → List Message)
    (classify : String → Option Analysis) (calendar_ok : Bool)
    (send : String → String → Option String)
    (now : DateTime) (ts : Nat) (thread : MonitoredThread) : List Action :=
  match check_email_replies (mailbox thread.thread_id) with
  | none => []
  | some latest =>
    if thread.last_message_id = some latest.id then []
    else
      (process_candidate_reply latest.content thread.candidate_email
        thread.hr_telegram_id classify calendar_ok send now ts []).calls ++
      [.updateMarker thread.thread_id latest.id]

/-- The working set of one cycle: `check_threads` first runs
`remove_expired_threads`, then `get_active_threads`. -/
def cycle_working_set (ts : Nat) (db : List MonitoredThread) : List MonitoredThread :=
  get_active_threads ts (remove_expired_threads ts db)

/-- One iteration of the `for thread in active_threads` loop of
`check_threads`, threading the table and accumulating the call trace. -/
def cycle_step (mailbox : String → List Message)
    (classify : String → Option Analysis) (calendar_ok : Bool)
    (send : String → String → Option String)
    (now : DateTime) (ts : Nat) (st : List MonitoredThread × List Action)
    (thread : MonitoredThread) : List MonitoredThread × List Action :=
  let r := process_thread mailbox classify calendar_ok send now ts thread st.1
  (r.1, st.2 ++ r.2)

/-- One execution of `check_threads`: sweep expired rows, list the active
threads, then run the per-thread loop over that snapshot.  A failure inside
one thread's iteration is caught by the per-thread `except` and only logged;
in this pure embedding every iteration runs to completion, so the fold
visits every active thread. -/
def check_threads (mailbox : String → List Message)
    (classify : String → Option Analysis) (calendar_ok : Bool)
    (send : String → String → Option String)
    (now : DateTime) (ts : Nat) (db : List MonitoredThread) :
    List MonitoredThread × List Action :=
  (cycle_working_set ts db).foldl
    (cycle_step mailbox classify calendar_ok send now ts)
    (remove_expired_threads ts db, [])

/-! ## Body extraction (`email_base.py`) -/

/-- One entry of `msg["payload"]["parts"]`: its `mimeType` and the body's
`data` field (`""` when `part["body"]` has no `data` key, matching
`part["body"].get("data", "")`). -/
structure EmailPart where
  mimeType : String
  data : String
deriving DecidableEq, Repr

/-- Model of `msg["payload"]`: `parts = some l` when the `parts` key is present,
`body = some d` when the `body` key is present with data `d`
(`""` for a missing `data` key). -/
structure GmailPayload where
  parts : Option (List EmailPart)
  body : Option String
deriving DecidableEq, Repr

/-- A raw Gmail message: `payload = none` when the `payload` key is absent. -/
structure GmailMsg where
  payload : Option GmailPayload
deriving DecidableEq, Repr

/-- Loop body of `extract_email_content` over the parts list.  The accumulator
is `none` once `base64.urlsafe_b64decode(data).decode("utf-8")` has raised
(`decode` returns `none`): in Python the exception propagates out of the
`for` loop at that point, so no later part is looked at and the caller sees
the exception, not a result. -/
def extract_parts_loop (decode : String → Option String)
    (parts : List EmailPart) (acc : String) : Option String :=
  match parts with
  | [] => some acc
  | part :: rest =>
    if part.mimeType = "text/plain" then
      if part.data = "" then extract_parts_loop decode rest acc
      else
        match decode part.data with
        | none => none
        | some s => extract_parts_loop decode rest (acc ++ s)
    else extract_parts_loop decode rest acc

/-- Embeds `extract_email_content`, parameterised by the external base64+UTF-8
decoder (`decode text = none` models a raised `binascii.Error` /
`UnicodeDecodeError`; the overall result `none` is that exception escaping
`extract_email_content`).  With a `parts` list, every `text/plain` part's
data is decoded and concatenated in order; otherwise a lone `body`'s data is
decoded; with neither, the empty string is returned. -/
def extract_email_content (decode : String → Option String) (msg : GmailMsg) :
    Option String :=
  match msg.payload with
  | none => some ("")
  | some payload =>
    match payload.parts with
    | some parts => extract_parts_loop decode parts ("")
    | none =>
      match payload.body with
      | none => some ("")
      | some d => if d = "" then some ("") else decode d

/-! ## Spec-side definitions for the scheduling default (refinement only)

The repository has no business-day logic; these definitions follow the
spec's words so the code's default can be compared against them. -/

/-- Day-of-week of an epoch day number; day 0 (1970-01-01) was a Thursday,
so remainder 2 is Saturday and remainder 3 is Sunday. -/
def isWeekendDay (d : Nat) : Bool :=
  d % 7 = 2 || d % 7 = 3

/-- Modelled from the spec: "default to next business day 10:00 local" —
the first non-weekend day strictly after `now`, at 10:00.  This definition
follows the spec's words only (the source `email_monitor_task.py` has no
such computation); it exists to be compared with `default_meeting_time`. -/
def spec_next_business_day_ten (now : DateTime) : DateTime :=
  let d :=
    if !isWeekendDay (now.day + 1) then now.day + 1
    else if !isWeekendDay (now.day + 2) then now.day + 2
    else now.day + 3
  { day := d, hour := 10, minute := 0 }

/-! ## Derived observations used in statements -/

/-- The texts handed to the classifier within a call trace. -/
def classified_texts (acts : List Action) : List String :=
  acts.filterMap (fun a => match a with | .classify s => some s | _ => none)

/-- Every `text/plain` part with a nonempty `data` field decodes. -/
def all_parts_decodable (decode : String → Option String)
    (parts : List EmailPart) : Bool :=
  parts.all (fun p =>
    !(decide (p.mimeType = "text/plain")) || decide (p.data = "") || (decode p.data).isSome)

/-- The decodings, in order, of the `text/plain` parts carrying data. -/
def text_plain_pieces (decode : String → Option String)
    (parts : List EmailPart) : List String :=
  parts.filterMap (fun p =>
    if p.mimeType = "text/plain" ∧ p.data ≠ "" then decode p.data else none)

/-! ## Concrete fixtures -/

/-- A table row with given id, contacts, expiry and marker (timestamps 0). -/
def mkThread (tid cand hr : String) (expiry : Nat) (marker : Option String) :
    MonitoredThread :=
  { thread_id := tid, candidate_email := cand, hr_telegram_id := hr,
    expiry_time := expiry, last_message_id := marker, created_at := 0, updated_at := 0 }

/-- A classifier that reads every reply as a confident agreement without a
proposed datetime. -/
def classifierAgree : String → Option Analysis :=
  fun _ => some { agrees_to_schedule := true, confirm_datetime := none,
                  confidence_score := mkRat 9 10,
                  suggested_action := "schedule_interview", explanation := "ok" }

/-- A classifier that reads every reply as a confident decline. -/
def classifierDecline : String → Option Analysis :=
  fun _ => some { agrees_to_schedule := false, confirm_datetime := none,
                  confidence_score := mkRat 19 20,
                  suggested_action := "notify_hr", explanation := "declined" }

/-- A classifier whose raw output never parses into a decision. -/
def classifierMalformed : String → Option Analysis :=
  fun _ => none

/-- A classifier that reads every reply as ambiguous with low confidence. -/
def classifierAmbiguous : String → Option Analysis :=
  fun _ => some { agrees_to_schedule := false, confirm_datetime := none,
                  confidence_score := mkRat 3 10,
                  suggested_action := "request_clarification", explanation := "unclear" }

/-- A mailbox in which every thread holds an outbound invite and one reply. -/
def mailboxOneReply : String → List Message :=
  fun _ => [{ id := "m1", content := "invite" }, { id := "m2", content := "a reply" }]

/-- A mailbox in which every thread holds an invite and two replies. -/
def mailboxTwoReplies : String → List Message :=
  fun _ => [{ id := "m1", content := "invite" },
            { id := "m2", content := "reply two" },
            { id := "m3", content := "reply three" }]

/-- A decoder that fails on the data `"BAD"` and wraps anything else; stands
in for `base64.urlsafe_b64decode(...).decode("utf-8")`. -/
def decodeStub : String → Option String :=
  fun s => if s = "BAD" then none else some s

/-- A send gateway on which every send succeeds; Gmail assigns the fresh
conversation the thread id `"t2"`. -/
def gatewaySendNew : String → String → Option String :=
  fun _ _ => some ("t2")

/-! ## Helper lemmas -/

theorem extract_parts_loop_eq (decode : String → Option String)
    (parts : List EmailPart) (acc : String) :
    extract_parts_loop decode parts acc
      = if all_parts_decodable decode parts = true
        then some ((text_plain_pieces decode parts).foldl (fun x y => x ++ y) acc)
        else none := by
  induction parts generalizing acc with
  | nil => rfl
  | cons p rest ih =>
    unfold extract_parts_loop
    by_cases h1 : p.mimeType = "text/plain"
    · by_cases h2 : p.data = ""
      · rw [if_pos h1, if_pos h2, ih]
        simp [all_parts_decodable, text_plain_pieces, h1, h2]
      · rw [if_pos h1, if_neg h2]
        cases hd : decode p.data with
        | none => simp [all_parts_decodable, text_plain_pieces, h1, h2, hd]
        | some s =>
          show extract_parts_loop decode rest (acc ++ s) = _
          rw [ih]
          simp [all_parts_decodable, text_plain_pieces, h1, h2, hd]
    · rw [if_neg h1, ih]
      simp [all_parts_decodable, text_plain_pieces, h1]

theorem process_candidate_reply_calls_db (rc ce hr : String)
    (classify : String → Option Analysis) (calendar_ok : Bool)
    (send : String → String → Option String) (now : DateTime) (ts : Nat)
    (db : List MonitoredThread) :
    (process_candidate_reply rc ce hr classify calendar_ok send now ts db).calls
      = (process_candidate_reply rc ce hr classify calendar_ok send now ts []).calls := by
  unfold process_candidate_reply
  split
  · rfl
  · dsimp only
    split
    · split <;> rfl
    · rfl

theorem process_thread_snd (mailbox : String → List Message)
    (classify : String → Option Analysis) (calendar_ok : Bool)
    (send : String → String → Option String) (now : DateTime)
    (ts : Nat) (thread : MonitoredThread) (db : List MonitoredThread) :
    (process_thread mailbox classify calendar_ok send now ts thread db).2
      = thread_actions mailbox classify calendar_ok send now ts thread := by
  unfold process_thread thread_actions
  cases check_email_replies (mailbox thread.thread_id) with
  | none => rfl
  | some latest =>
    by_cases h : thread.last_message_id = some latest.id <;>
      simp [h, process_candidate_reply_calls_db]

theorem update_thread_message_id_ids (tid mid : String) (ts : Nat)
    (db : List MonitoredThread) :
    (update_thread_message_id tid mid ts db).map (fun t => t.thread_id)
      = db.map (fun t => t.thread_id) := by
  unfold update_thread_message_id
  rw [List.map_map]
  apply List.map_congr_left
  intro t _
  by_cases h : t.thread_id = tid <;> simp [h]

theorem add_thread_preserves_ids (tid cand hr : String) (exp now : Nat)
    (db : List MonitoredThread) (tid0 : String)
    (h : db.any (fun r => r.thread_id = tid0) = true) :
    (add_thread_to_monitor tid cand hr exp now db).any
      (fun r => r.thread_id = tid0) = true := by
  unfold add_thread_to_monitor
  split
  · rw [List.any_eq_true] at h ⊢
    obtain ⟨x, hx, hxe⟩ := h
    refine ⟨_, List.mem_map_of_mem _ hx, ?_⟩
    by_cases hxt : x.thread_id = tid <;> simpa [hxt] using hxe
  · rw [List.any_append, h, Bool.true_or]

theorem update_preserves_ids (tid mid : String) (ts : Nat)
    (db : List MonitoredThread) (tid0 : String)
    (h : db.any (fun r => r.thread_id = tid0) = true) :
    (update_thread_message_id tid mid ts db).any
      (fun r => r.thread_id = tid0) = true := by
  unfold update_thread_message_id
  rw [List.any_eq_true] at h ⊢
  obtain ⟨x, hx, hxe⟩ := h
  refine ⟨_, List.mem_map_of_mem _ hx, ?_⟩
  by_cases hxt : x.thread_id = tid <;> simpa [hxt] using hxe

theorem send_email_preserves_ids (send : String → String → Option String)
    (to_email subject : String) (ts : Nat) (db : List MonitoredThread) (tid0 : String)
    (h : db.any (fun r => r.thread_id = tid0) = true) :
    (send_email send to_email subject ts db).any
      (fun r => r.thread_id = tid0) = true := by
  unfold send_email
  split
  · exact add_thread_preserves_ids _ _ _ _ _ _ _ h
  · exact h

theorem process_reply_db_preserves_ids (rc ce hr : String)
    (classify : String → Option Analysis) (calendar_ok : Bool)
    (send : String → String → Option String) (now : DateTime) (ts : Nat)
    (db : List MonitoredThread) (tid0 : String)
    (h : db.any (fun r => r.thread_id = tid0) = true) :
    (process_candidate_reply rc ce hr classify calendar_ok send now ts db).db.any
      (fun r => r.thread_id = tid0) = true := by
  unfold process_candidate_reply
  split
  · exact h
  · dsimp only
    split
    · split
      · exact send_email_preserves_ids _ _ _ _ _ _ h
      · exact h
    · exact send_email_preserves_ids _ _ _ _ _ _ h

theorem process_thread_preserves_ids (mailbox : String → List Message)
    (classify : String → Option Analysis) (calendar_ok : Bool)
    (send : String → String → Option String) (now : DateTime)
    (ts : Nat) (thread : MonitoredThread) (db : List MonitoredThread) (tid0 : String)
    (h : db.any (fun r => r.thread_id = tid0) = true) :
    (process_thread mailbox classify calendar_ok send now ts thread db).1.any
      (fun r => r.thread_id = tid0) = true := by
  unfold process_thread
  cases check_email_replies (mailbox thread.thread_id) with
  | none => exact h
  | some latest =>
    by_cases hseen : thread.last_message_id = some latest.id
    · simpa [hseen] using h
    · simp only [if_neg hseen]
      exact update_preserves_ids _ _ _ _ _
        (process_reply_db_preserves_ids _ _ _ _ _ _ _ _ _ _ h)

theorem cycle_fold_preserves_ids (mailbox : String → List Message)
    (classify : String → Option Analysis) (calendar_ok : Bool)
    (send : String → String → Option String) (now : DateTime)
    (ts : Nat) (active : List MonitoredThread)
    (acc : List MonitoredThread × List Action) (tid0 : String)
    (h : acc.1.any (fun r => r.thread_id = tid0) = true) :
    (active.foldl (cycle_step mailbox classify calendar_ok send now ts) acc).1.any
      (fun r => r.thread_id = tid0) = true := by
  induction active generalizing acc with
  | nil => exact h
  | cons t rest ih =>
    rw [List.foldl_cons]
    exact ih _ (process_thread_preserves_ids _ _ _ _ _ _ _ _ _ h)

theorem cycle_fold_snd (mailbox : String → List Message)
    (classify : String → Option Analysis) (calendar_ok : Bool)
    (send : String → String → Option String) (now : DateTime)
    (ts : Nat) (active : List MonitoredThread)
    (acc : List MonitoredThread × List Action) :
    (active.foldl (cycle_step mailbox classify calendar_ok send now ts) acc).2
      = acc.2
        ++ (active.map (thread_actions mailbox classify calendar_ok send now ts)).flatten := by
  induction active generalizing acc with
  | nil => simp
  | cons t rest ih =>
    rw [List.foldl_cons, ih]
    simp [cycle_step, process_thread_snd, List.append_assoc]

theorem check_threads_snd (mailbox : String → List Message)
    (classify : String → Option Analysis) (calendar_ok : Bool)
    (send : String → String → Option String) (now : DateTime)
    (ts : Nat) (db : List MonitoredThread) :
    (check_threads mailbox classify calendar_ok send now ts db).2
      = ((cycle_working_set ts db).map
          (thread_actions mailbox classify calendar_ok send now ts)).flatten := by
  unfold check_threads
  rw [cycle_fold_snd]
  simp

theorem process_calls_no_remove (rc ce hr : String)
    (classify : String → Option Analysis) (calendar_ok : Bool)
    (send : String → String → Option String) (now : DateTime) (ts : Nat)
    (db : List MonitoredThread) :
    (process_candidate_reply rc ce hr classify calendar_ok send now ts db).calls.all
      (fun a => !a.isRemoveThread) = true := by
  unfold process_candidate_reply
  split
  · rfl
  · dsimp only
    split
    · split <;> rfl
    · rfl

theorem thread_actions_no_remove (mailbox : String → List Message)
    (classify : String → Option Analysis) (calendar_ok : Bool)
    (send : String → String → Option String) (now : DateTime) (ts : Nat)
    (thread : MonitoredThread) :
    (thread_actions mailbox classify calendar_ok send now ts thread).all
      (fun a => !a.isRemoveThread) = true := by
  unfold thread_actions
  split
  · rfl
  · split
    · rfl
    · rw [List.all_append]
      simp only [process_calls_no_remove]
      rfl

theorem process_thread_skip (mailbox : String → List Message)
    (classify : String → Option Analysis) (calendar_ok : Bool)
    (send : String → String → Option String) (now : DateTime)
    (ts : Nat) (thread : MonitoredThread) (db : List MonitoredThread) (m : Message)
    (hrep : check_email_replies (mailbox thread.thread_id) = some m)
    (hseen : thread.last_message_id = some m.id) :
    process_thread mailbox classify calendar_ok send now ts thread db = (db, []) := by
  unfold process_thread
  rw [hrep]
  simp [hseen]

theorem process_thread_new_fst (mailbox : String → List Message)
    (classify : String → Option Analysis) (calendar_ok : Bool)
    (send : String → String → Option String) (now : DateTime)
    (ts : Nat) (thread : MonitoredThread) (db : List MonitoredThread) (m : Message)
    (hrep : check_email_replies (mailbox thread.thread_id) = some m)
    (hnew : ¬ thread.last_message_id = some m.id) :
    (process_thread mailbox classify calendar_ok send now ts thread db).1
      = update_thread_message_id thread.thread_id m.id ts
          (process_candidate_reply m.content thread.candidate_email
            thread.hr_telegram_id classify calendar_ok send now ts db).db := by
  unfold process_thread
  rw [hrep]
  simp [hnew]

theorem process_thread_new_snd (mailbox : String → List Message)
    (classify : String → Option Analysis) (calendar_ok : Bool)
    (send : String → String → Option String) (now : DateTime)
    (ts : Nat) (thread : MonitoredThread) (db : List MonitoredThread) (m : Message)
    (hrep : check_email_replies (mailbox thread.thread_id) = some m)
    (hnew : ¬ thread.last_message_id = some m.id) :
    (process_thread mailbox classify calendar_ok send now ts thread db).2
      = (process_candidate_reply m.content thread.candidate_email
          thread.hr_telegram_id classify calendar_ok send now ts db).calls
        ++ [.updateMarker thread.thread_id m.id] := by
  unfold process_thread
  rw [hrep]
  simp [hnew]

theorem update_thread_message_id_marker (tid mid : String) (ts : Nat)
    (db : List MonitoredThread) :
    ∀ t' ∈ update_thread_message_id tid mid ts db,
      t'.thread_id = tid → t'.last_message_id = some mid := by
  intro t' ht' heq
  unfold update_thread_message_id at ht'
  obtain ⟨s, hs, rfl⟩ := List.mem_map.mp ht'
  by_cases h : s.thread_id = tid
  · simp [h]
  · rw [if_neg h] at heq ⊢
    exact absurd heq h

theorem process_calls_agree (rc ce hr : String)
    (classify : String → Option Analysis) (calendar_ok : Bool)
    (send : String → String → Option String) (now : DateTime) (ts : Nat)
    (db : List MonitoredThread)
    (a : Analysis) (hc : classify rc = some a)
    (hagr : a.agrees_to_schedule = true)
    (hconf : mkRat 1 2 ≤ a.confidence_score) :
    (process_candidate_reply rc ce hr classify calendar_ok send now ts db).calls
      = [.classify rc,
         .createEvent ("Interview with " ++ ce) (resolved_meeting_time a now)
           (addHours (resolved_meeting_time a now) 1) [ce]]
        ++ (if calendar_ok then [.sendEmail ce ("Interview Confirmation")] else []) := by
  unfold process_candidate_reply
  rw [hc]
  dsimp only
  rw [if_pos ⟨hagr, hconf⟩]
  cases calendar_ok <;> rfl

theorem process_db_calendar_fail (rc ce hr : String)
    (classify : String → Option Analysis)
    (send : String → String → Option String) (now : DateTime) (ts : Nat)
    (db : List MonitoredThread)
    (a : Analysis) (hc : classify rc = some a)
    (hagr : a.agrees_to_schedule = true)
    (hconf : mkRat 1 2 ≤ a.confidence_score) :
    (process_candidate_reply rc ce hr classify false send now ts db).db = db := by
  unfold process_candidate_reply
  rw [hc]
  dsimp only
  rw [if_pos ⟨hagr, hconf⟩]
  rfl

theorem classified_texts_process (rc ce hr : String)
    (classify : String → Option Analysis) (calendar_ok : Bool)
    (send : String → String → Option String) (now : DateTime) (ts : Nat)
    (db : List MonitoredThread) :
    classified_texts
        (process_candidate_reply rc ce hr classify calendar_ok send now ts db).calls
      = [rc] := by
  unfold process_candidate_reply
  split
  · rfl
  · dsimp only
    split
    · split <;> rfl
    · rfl

/-! ## C2 — dedup idempotence -/

/-- C2: if the latest message's id equals the thread's stored
`last_message_id`, the per-thread body of `check_threads` performs no call at
all — no classification, no email, no calendar creation, no notification —
and leaves the table untouched.  The equality is tested before any
side-effecting call, so a second poll cycle against an unchanged mailbox
repeats no action for an already-processed reply. -/
theorem C2_dedup_idempotent (mailbox : String → List Message)
    (classify : String → Option Analysis) (calendar_ok : Bool)
    (send : String → String → Option String) (now : DateTime)
    (ts : Nat) (thread : MonitoredThread) (db : List MonitoredThread) (m : Message)
    (hrep : check_email_replies (mailbox thread.thread_id) = some m)
    (hseen : thread.last_message_id = some m.id) :
    process_thread mailbox classify calendar_ok send now ts thread db = (db, []) := by
  unfold process_thread
  rw [hrep]
  simp [hseen]

/-- Witness for `C2_dedup_idempotent` at a concrete thread and mailbox. -/
theorem C2_dedup_idempotent_witness :
    check_email_replies (mailboxOneReply ("t1")) = some { id := "m2", content := "a reply" } ∧
    (mkThread ("t1") "c@x" "hr1" 100 (some ("m2"))).last_message_id = some ("m2") ∧
    process_thread mailboxOneReply classifierAgree true gatewaySendNew ⟨0, 9, 0⟩ 50
        (mkThread ("t1") "c@x" "hr1" 100 (some ("m2")))
        [mkThread ("t1") "c@x" "hr1" 100 (some ("m2"))]
      = ([mkThread ("t1") "c@x" "hr1" 100 (some ("m2"))], []) :=
  ⟨by decide, by decide,
   C2_dedup_idempotent mailboxOneReply classifierAgree true gatewaySendNew ⟨0, 9, 0⟩ 50
     (mkThread ("t1") "c@x" "hr1" 100 (some ("m2")))
     [mkThread ("t1") "c@x" "hr1" 100 (some ("m2"))]
     { id := "m2", content := "a reply" } (by decide) (by decide)⟩

/-! ## C6 — expiry semantics -/

/-- C6: a thread is returned by `get_active_threads` iff its `expiry_time` is
strictly greater than now; `remove_expired_threads` deletes exactly the rows
with `expiry_time ≤ now` (a row survives iff it is not expired); and because
`check_threads` runs the sweep before the active query, an expired thread is
not in the cycle's working set — it is never processed again, whatever its
mailbox later holds. -/
theorem C6_expiry (ts : Nat) (db : List MonitoredThread) (t : MonitoredThread) :
    (t ∈ get_active_threads ts db ↔ t ∈ db ∧ ts < t.expiry_time) ∧
    (t ∈ remove_expired_threads ts db ↔ t ∈ db ∧ ¬ t.expiry_time ≤ ts) ∧
    (t.expiry_time ≤ ts → t ∉ cycle_working_set ts db) := by
  refine ⟨?_, ?_, ?_⟩
  · simp [get_active_threads, List.mem_filter]
  · simp [remove_expired_threads, List.mem_filter]
  · intro h hmem
    simp [cycle_working_set, get_active_threads, remove_expired_threads,
      List.mem_filter] at hmem
    omega

/-- Witness for `C6_expiry`: a thread expired at tick 3 is not in the working
set of a cycle run at tick 5. -/
theorem C6_expiry_witness :
    mkThread ("t1") "c@x" "hr1" 3 none
      ∉ cycle_working_set 5 [mkThread ("t1") "c@x" "hr1" 3 none] :=
  (C6_expiry 5 [mkThread ("t1") "c@x" "hr1" 3 none]
    (mkThread ("t1") "c@x" "hr1" 3 none)).2.2 (by decide)

/-! ## C7 — idempotent upsert -/

/-- C7: registering a `thread_id` not yet present appends a row whose
`last_message_id` is `NULL`; re-registering an existing `thread_id` rewrites
only `candidate_email`, `hr_telegram_id`, `expiry_time` and `updated_at` of
its row — every row's `last_message_id`, `thread_id` and `created_at` are
unchanged, and rows with other ids are untouched. -/
theorem C7_upsert_preserves_marker (db : List MonitoredThread)
    (tid cand hr : String) (exp now : Nat) :
    (db.all (fun t => !(decide (t.thread_id = tid))) = true →
      add_thread_to_monitor tid cand hr exp now db
        = db ++ [{ thread_id := tid, candidate_email := cand, hr_telegram_id := hr,
                   expiry_time := exp, last_message_id := none,
                   created_at := now, updated_at := now }]) ∧
    (db.any (fun t => t.thread_id = tid) = true →
      (add_thread_to_monitor tid cand hr exp now db).map (fun t => t.last_message_id)
          = db.map (fun t => t.last_message_id) ∧
      (add_thread_to_monitor tid cand hr exp now db).map (fun t => t.thread_id)
          = db.map (fun t => t.thread_id) ∧
      (add_thread_to_monitor tid cand hr exp now db).map (fun t => t.created_at)
          = db.map (fun t => t.created_at) ∧
      (∀ t ∈ db, t.thread_id = tid →
        ({ t with candidate_email := cand, hr_telegram_id := hr,
                  expiry_time := exp, updated_at := now } : MonitoredThread)
          ∈ add_thread_to_monitor tid cand hr exp now db) ∧
      (∀ t ∈ db, ¬ t.thread_id = tid → t ∈ add_thread_to_monitor tid cand hr exp now db)) := by
  constructor
  · intro hall
    have hany : db.any (fun t => t.thread_id = tid) = false := by
      rw [List.any_eq_false]
      intro t ht
      have := List.all_eq_true.mp hall t ht
      simpa using this
    simp [add_thread_to_monitor, hany]
  · intro hany
    unfold add_thread_to_monitor
    rw [hany]
    simp only [if_true]
    refine ⟨?_, ?_, ?_, ?_, ?_⟩
    · rw [List.map_map]
      apply List.map_congr_left
      intro t _
      by_cases h : t.thread_id = tid <;> simp [h]
    · rw [List.map_map]
      apply List.map_congr_left
      intro t _
      by_cases h : t.thread_id = tid <;> simp [h]
    · rw [List.map_map]
      apply List.map_congr_left
      intro t _
      by_cases h : t.thread_id = tid <;> simp [h]
    · intro t ht htt
      have hm := List.mem_map_of_mem
        (fun t : MonitoredThread =>
          if t.thread_id = tid then
            { t with candidate_email := cand, hr_telegram_id := hr,
                     expiry_time := exp, updated_at := now }
          else t) ht
      simpa [htt] using hm
    · intro t ht htt
      have hm := List.mem_map_of_mem
        (fun t : MonitoredThread =>
          if t.thread_id = tid then
            { t with candidate_email := cand, hr_telegram_id := hr,
                     expiry_time := exp, updated_at := now }
          else t) ht
      simpa [htt] using hm

/-- Witness for `C7_upsert_preserves_marker`: inserting a fresh id appends a
`NULL`-marker row; upserting an existing id leaves its marker `some "m7"`. -/
theorem C7_upsert_preserves_marker_witness :
    add_thread_to_monitor ("t2") "c2@x" "hr2" 9 7 [mkThread ("t1") "c@x" "hr1" 5 (some ("m7"))]
      = [mkThread ("t1") "c@x" "hr1" 5 (some ("m7")),
         { thread_id := "t2", candidate_email := "c2@x", hr_telegram_id := "hr2",
           expiry_time := 9, last_message_id := none, created_at := 7, updated_at := 7 }] ∧
    (add_thread_to_monitor ("t1") "c2@x" "hr2" 9 7
        [mkThread ("t1") "c@x" "hr1" 5 (some ("m7"))]).map (fun t => t.last_message_id)
      = [some ("m7")] :=
  ⟨(C7_upsert_preserves_marker [mkThread ("t1") "c@x" "hr1" 5 (some ("m7"))]
      "t2" "c2@x" "hr2" 9 7).1 (by decide),
   by
    have h := ((C7_upsert_preserves_marker [mkThread ("t1") "c@x" "hr1" 5 (some ("m7"))]
      "t1" "c2@x" "hr2" 9 7).2 (by decide)).1
    rw [h]
    decide⟩

/-! ## C5 — escalation on low confidence -/

/-- C5: for every well-formed decision whose confidence is strictly below the
0.5 threshold, processing the reply notifies the HR Telegram contact and
makes no calendar-event creation call. -/
theorem C5_low_confidence_escalates (rc ce hr : String)
    (classify : String → Option Analysis) (calendar_ok : Bool)
    (send : String → String → Option String) (now : DateTime) (ts : Nat)
    (db : List MonitoredThread)
    (a : Analysis) (hc : classify rc = some a)
    (hlow : a.confidence_score < mkRat 1 2) :
    Action.notifyTelegram hr
        ∈ (process_candidate_reply rc ce hr classify calendar_ok send now ts db).calls ∧
    (process_candidate_reply rc ce hr classify calendar_ok send now ts db).calls.all
        (fun x => !x.isCreateEvent) = true := by
  have hcond : ¬ (a.agrees_to_schedule = true ∧ mkRat 1 2 ≤ a.confidence_score) :=
    fun hcl => absurd hcl.2 (not_le.mpr hlow)
  unfold process_candidate_reply
  rw [hc]
  dsimp only
  rw [if_neg hcond]
  exact ⟨by simp, rfl⟩

/-- Witness for `C5_low_confidence_escalates` at a concrete low-confidence
ambiguous decision. -/
theorem C5_low_confidence_escalates_witness :
    classifierAmbiguous ("maybe later")
      = some { agrees_to_schedule := false, confirm_datetime := none,
               confidence_score := mkRat 3 10,
               suggested_action := "request_clarification", explanation := "unclear" } ∧
    mkRat 3 10 < mkRat 1 2 ∧
    Action.notifyTelegram ("hr1")
      ∈ (process_candidate_reply ("maybe later") "c@x" "hr1" classifierAmbiguous
          true gatewaySendNew ⟨0, 9, 0⟩ 50 []).calls ∧
    (process_candidate_reply ("maybe later") "c@x" "hr1" classifierAmbiguous
        true gatewaySendNew ⟨0, 9, 0⟩ 50 []).calls.all
      (fun x => !x.isCreateEvent) = true :=
  ⟨by decide, by decide,
   (C5_low_confidence_escalates ("maybe later") "c@x" "hr1" classifierAmbiguous
      true gatewaySendNew ⟨0, 9, 0⟩ 50 []
      { agrees_to_schedule := false, confirm_datetime := none,
        confidence_score := mkRat 3 10,
        suggested_action := "request_clarification", explanation := "unclear" }
      (by decide) (by decide)).1,
   (C5_low_confidence_escalates ("maybe later") "c@x" "hr1" classifierAmbiguous
      true gatewaySendNew ⟨0, 9, 0⟩ 50 []
      { agrees_to_schedule := false, confirm_datetime := none,
        confidence_score := mkRat 3 10,
        suggested_action := "request_clarification", explanation := "unclear" }
      (by decide) (by decide)).2⟩

/-! ## C4 — malformed classifier output -/

/-- C4 counterexample: on a reply whose classifier output does not parse, the
handler returns an error without making any notification call — the
escalation contact is not notified, contrary to the claim. -/
theorem C4_counterexample :
    classifierMalformed ("garbage") = none ∧
    (process_candidate_reply ("garbage") "c@x" "hr1" classifierMalformed
        true gatewaySendNew ⟨0, 9, 0⟩ 50 []).status = "error" ∧
    (process_candidate_reply ("garbage") "c@x" "hr1" classifierMalformed
        true gatewaySendNew ⟨0, 9, 0⟩ 50 []).calls.all
      (fun a => !a.isNotify) = true := by
  decide

/-- C4 amended: malformed classifier output is caught inside
`process_candidate_reply`, which returns an error result whose only recorded
call is the classification attempt itself — in particular it sends no email
and notifies nobody — and the poll cycle does not abort: the cycle's trace is
the concatenation of every active thread's own trace (each thread's trace
depends only on its own row and mailbox), so the remaining threads are still
processed. -/
theorem C4_malformed_is_caught (rc ce hr : String)
    (classify : String → Option Analysis) (calendar_ok : Bool)
    (send : String → String → Option String) (now : DateTime) (ts : Nat)
    (db : List MonitoredThread)
    (h : classify rc = none) :
    (process_candidate_reply rc ce hr classify calendar_ok send now ts db).status
        = "error" ∧
    (process_candidate_reply rc ce hr classify calendar_ok send now ts db).calls
        = [.classify rc] ∧
    ∀ (mailbox : String → List Message) (ts' : Nat) (db' : List MonitoredThread),
      (check_threads mailbox classify calendar_ok send now ts' db').2
        = ((cycle_working_set ts' db').map
            (thread_actions mailbox classify calendar_ok send now ts')).flatten := by
  refine ⟨?_, ?_, fun mailbox ts' db' => check_threads_snd _ _ _ _ _ _ _⟩
  · unfold process_candidate_reply
    rw [h]
  · unfold process_candidate_reply
    rw [h]

/-- Witness for `C4_malformed_is_caught` at a concrete unparseable output. -/
theorem C4_malformed_is_caught_witness :
    classifierMalformed ("noise") = none ∧
    (process_candidate_reply ("noise") "c@x" "hr1" classifierMalformed
        false gatewaySendNew ⟨0, 9, 0⟩ 50 []).status = "error" ∧
    (process_candidate_reply ("noise") "c@x" "hr1" classifierMalformed
        false gatewaySendNew ⟨0, 9, 0⟩ 50 []).calls = [.classify ("noise")] :=
  ⟨by decide,
   (C4_malformed_is_caught ("noise") "c@x" "hr1" classifierMalformed
      false gatewaySendNew ⟨0, 9, 0⟩ 50 [] (by decide)).1,
   (C4_malformed_is_caught ("noise") "c@x" "hr1" classifierMalformed
      false gatewaySendNew ⟨0, 9, 0⟩ 50 [] (by decide)).2.1⟩

/-! ## C1 — behaviour on calendar failure -/

/-- C1 counterexample: the calendar call fails on a confident agreement
(`calendar_ok = false`: the trace shows the `createEvent` attempt and no
confirmation email), yet the stored marker is advanced from `none` to the
reply's id `"m2"` — the stored row is changed, contrary to the claim. -/
theorem C1_counterexample :
    (process_thread mailboxOneReply classifierAgree false gatewaySendNew ⟨0, 9, 0⟩ 50
        (mkThread ("t1") "c@x" "hr1" 100 none)
        [mkThread ("t1") "c@x" "hr1" 100 none]).1.map (fun t => t.last_message_id)
      = [some ("m2")] ∧
    [mkThread ("t1") "c@x" "hr1" 100 none].map (fun t => t.last_message_id) = [none] ∧
    (process_thread mailboxOneReply classifierAgree false gatewaySendNew ⟨0, 9, 0⟩ 50
        (mkThread ("t1") "c@x" "hr1" 100 none)
        [mkThread ("t1") "c@x" "hr1" 100 none]).2
      = [.classify ("a reply"),
         .createEvent ("Interview with c@x") ⟨1, 10, 0⟩ ⟨1, 11, 0⟩ ["c@x"],
         .updateMarker ("t1") "m2"] := by
  decide

/-- C1 amended: when the calendar call fails on a confident agreement, the
thread is indeed not removed — no row disappears and no remove call is made,
and the booking was attempted without a confirmation email — but the stored
marker IS advanced to the failing reply's id, so the same reply is skipped,
not reclassified, on the next cycle. -/
theorem C1_calendar_failure_advances_marker (mailbox : String → List Message)
    (classify : String → Option Analysis)
    (send : String → String → Option String) (now : DateTime) (ts : Nat)
    (thread : MonitoredThread) (db : List MonitoredThread) (m : Message) (a : Analysis)
    (hrep : check_email_replies (mailbox thread.thread_id) = some m)
    (hnew : ¬ thread.last_message_id = some m.id)
    (hc : classify m.content = some a)
    (hagr : a.agrees_to_schedule = true)
    (hconf : mkRat 1 2 ≤ a.confidence_score) :
    ((process_thread mailbox classify false send now ts thread db).1.map
        (fun t => t.thread_id)
        = db.map (fun t => t.thread_id)) ∧
    ((process_thread mailbox classify false send now ts thread db).2.any
        (fun x => x.isCreateEvent) = true) ∧
    (Action.sendEmail thread.candidate_email ("Interview Confirmation")
        ∉ (process_thread mailbox classify false send now ts thread db).2) ∧
    ((process_thread mailbox classify false send now ts thread db).2.all
        (fun x => !x.isRemoveThread) = true) ∧
    (∀ t' ∈ (process_thread mailbox classify false send now ts thread db).1,
        t'.thread_id = thread.thread_id → t'.last_message_id = some m.id) ∧
    process_thread mailbox classify false send now ts
        { thread with last_message_id := some m.id }
        (process_thread mailbox classify false send now ts thread db).1
      = ((process_thread mailbox classify false send now ts thread db).1, []) := by
  have hsnd := process_thread_new_snd mailbox classify false send now ts thread db m
    hrep hnew
  rw [process_calls_agree m.content thread.candidate_email thread.hr_telegram_id
    classify false send now ts db a hc hagr hconf] at hsnd
  simp only [if_neg (Bool.false_ne_true)] at hsnd
  have hfst := process_thread_new_fst mailbox classify false send now ts thread db m
    hrep hnew
  have hdb := process_db_calendar_fail m.content thread.candidate_email
    thread.hr_telegram_id classify send now ts db a hc hagr hconf
  refine ⟨?_, ?_, ?_, ?_, ?_, ?_⟩
  · rw [hfst, hdb]
    exact update_thread_message_id_ids _ _ _ _
  · rw [hsnd]
    rfl
  · rw [hsnd]
    simp [Action.isCreateEvent]
  · rw [process_thread_snd]
    exact thread_actions_no_remove _ _ _ _ _ _ _
  · rw [hfst]
    exact update_thread_message_id_marker _ _ _ _
  · exact process_thread_skip _ _ _ _ _ _ _ _ _ hrep rfl

/-- Witness for `C1_calendar_failure_advances_marker` at a concrete confident
agreement whose booking fails. -/
theorem C1_calendar_failure_advances_marker_witness :
    ((process_thread mailboxOneReply classifierAgree false gatewaySendNew ⟨3, 9, 0⟩ 50
        (mkThread ("t9") "c@x" "hr1" 100 (some ("m1")))
        [mkThread ("t9") "c@x" "hr1" 100 (some ("m1"))]).1.map (fun t => t.thread_id)
      = ["t9"]) ∧
    process_thread mailboxOneReply classifierAgree false gatewaySendNew ⟨3, 9, 0⟩ 50
        { mkThread ("t9") "c@x" "hr1" 100 (some ("m1")) with last_message_id := some ("m2") }
        (process_thread mailboxOneReply classifierAgree false gatewaySendNew ⟨3, 9, 0⟩ 50
          (mkThread ("t9") "c@x" "hr1" 100 (some ("m1")))
          [mkThread ("t9") "c@x" "hr1" 100 (some ("m1"))]).1
      = ((process_thread mailboxOneReply classifierAgree false gatewaySendNew ⟨3, 9, 0⟩ 50
          (mkThread ("t9") "c@x" "hr1" 100 (some ("m1")))
          [mkThread ("t9") "c@x" "hr1" 100 (some ("m1"))]).1, []) :=
  have h := C1_calendar_failure_advances_marker mailboxOneReply classifierAgree
    gatewaySendNew ⟨3, 9, 0⟩ 50 (mkThread ("t9") "c@x" "hr1" 100 (some ("m1")))
    [mkThread ("t9") "c@x" "hr1" 100 (some ("m1"))]
    { id := "m2", content := "a reply" }
    { agrees_to_schedule := true, confirm_datetime := none,
      confidence_score := mkRat 9 10,
      suggested_action := "schedule_interview", explanation := "ok" }
    (by decide) (by decide) (by decide) (by decide) (by decide)
  ⟨by rw [h.1]; decide, h.2.2.2.2.2⟩

/-! ## C3 — no removal on terminal outcomes -/

/-- C3 counterexample: a confident decline is handled to its terminal outcome
(the acknowledgement email and the notification are sent), yet the trace
holds no remove call and the thread's row — marker advanced — is still in the
table afterwards, contrary to the claim; moreover the successful
acknowledgement send has registered the fresh Gmail conversation `"t2"` as a
second monitored row (the `add_thread_to_monitor` nested in `send_email`). -/
theorem C3_counterexample :
    (check_threads mailboxOneReply classifierDecline true gatewaySendNew ⟨0, 9, 0⟩ 50
        [mkThread ("t1") "c@x" "hr1" 100 none]).2
      = [.classify ("a reply"), .sendEmail ("c@x") "Thank You for Your Response",
         .notifyTelegram ("hr1"), .updateMarker ("t1") "m2"] ∧
    (check_threads mailboxOneReply classifierDecline true gatewaySendNew ⟨0, 9, 0⟩ 50
        [mkThread ("t1") "c@x" "hr1" 100 none]).1
      = [{ thread_id := "t1", candidate_email := "c@x", hr_telegram_id := "hr1",
           expiry_time := 100, last_message_id := some ("m2"),
           created_at := 0, updated_at := 50 },
         { thread_id := "t2", candidate_email := "c@x",
           hr_telegram_id := "5318643303", expiry_time := 98,
           last_message_id := none, created_at := 50, updated_at := 50 }] := by
  decide

/-- C3 amended: `check_threads` never calls the store's remove operation — no
trace of any cycle holds a remove call, and the cycle deletes no row beyond
the expiry sweep: every thread id that survived the sweep is still present in
the post-cycle table (markers possibly advanced; successful follow-up or
confirmation sends may additionally register new rows for the fresh
acknowledgement conversations).  A thread handled to a terminal outcome
therefore stays in the watch set until its expiry. -/
theorem C3_no_removal_in_cycle (mailbox : String → List Message)
    (classify : String → Option Analysis) (calendar_ok : Bool)
    (send : String → String → Option String) (now : DateTime)
    (ts : Nat) (db : List MonitoredThread) :
    ((check_threads mailbox classify calendar_ok send now ts db).2.all
        (fun a => !a.isRemoveThread) = true) ∧
    ((remove_expired_threads ts db).all
        (fun t => (check_threads mailbox classify calendar_ok send now ts db).1.any
          (fun r => r.thread_id = t.thread_id)) = true) := by
  constructor
  · rw [check_threads_snd, List.all_eq_true]
    intro a ha
    obtain ⟨l, hl, hal⟩ := List.mem_flatten.mp ha
    obtain ⟨t, _, rfl⟩ := List.mem_map.mp hl
    exact List.all_eq_true.mp (thread_actions_no_remove _ _ _ _ _ _ _) a hal
  · rw [List.all_eq_true]
    intro t ht
    unfold check_threads
    apply cycle_fold_preserves_ids
    rw [List.any_eq_true]
    exact ⟨t, ht, by simp⟩

/-! ## C8 — scheduling defaults -/

/-- C8 counterexample: at a Friday (epoch day 8; day 9 is a Saturday), a
confident agreement without an extracted datetime is scheduled for day 9 at
10:00 — the next calendar day, a weekend day — while the next business day
at 10:00 would be day 11; the claim's "next business day" default does not
hold. -/
theorem C8_counterexample :
    (process_candidate_reply ("yes") "c@x" "hr1" classifierAgree true gatewaySendNew
        ⟨8, 9, 0⟩ 50 []).calls[1]?
      = some (.createEvent ("Interview with c@x") ⟨9, 10, 0⟩ ⟨9, 11, 0⟩ ["c@x"]) ∧
    isWeekendDay 9 = true ∧
    spec_next_business_day_ten ⟨8, 9, 0⟩ = ⟨11, 10, 0⟩ ∧
    (⟨9, 10, 0⟩ : DateTime) ≠ ⟨11, 10, 0⟩ := by
  decide

/-- C8 amended: a confident agreement without an extracted datetime is
scheduled for 10:00 on the next calendar day (which may fall on a weekend),
and every calendar event created for a reply — whose decision carries no
duration field at all — ends exactly one hour after it starts. -/
theorem C8_scheduling_defaults (rc ce hr : String)
    (classify : String → Option Analysis) (calendar_ok : Bool)
    (send : String → String → Option String) (now : DateTime) (ts : Nat)
    (db : List MonitoredThread)
    (a : Analysis) (hc : classify rc = some a)
    (hagr : a.agrees_to_schedule = true)
    (hconf : mkRat 1 2 ≤ a.confidence_score) :
    (a.confirm_datetime = none →
      (process_candidate_reply rc ce hr classify calendar_ok send now ts db).calls[1]?
        = some (.createEvent ("Interview with " ++ ce)
            { day := now.day + 1, hour := 10, minute := 0 }
            { day := now.day + 1, hour := 11, minute := 0 } [ce])) ∧
    (∀ s st en ats,
      Action.createEvent s st en ats
          ∈ (process_candidate_reply rc ce hr classify calendar_ok send now ts db).calls →
      en = addHours st 1) := by
  have hcalls := process_calls_agree rc ce hr classify calendar_ok send now ts db a
    hc hagr hconf
  constructor
  · intro hnone
    have hmt : resolved_meeting_time a now
        = { day := now.day + 1, hour := 10, minute := 0 } := by
      unfold resolved_meeting_time default_meeting_time
      rw [hnone]
    have hend : addHours { day := now.day + 1, hour := 10, minute := 0 } 1
        = { day := now.day + 1, hour := 11, minute := 0 } := by
      unfold addHours
      norm_num
    rw [hcalls, hmt, hend]
    cases calendar_ok <;> rfl
  · intro s st en ats hmem
    rw [hcalls] at hmem
    cases calendar_ok <;> simp [Action.createEvent.injEq] at hmem <;>
      obtain ⟨-, h2, h3, -⟩ := hmem <;> rw [h3, h2]

/-- Witness for `C8_scheduling_defaults`: a confident agreement with no
extracted datetime at 16:30 of day 20 books day 21, 10:00–11:00. -/
theorem C8_scheduling_defaults_witness :
    (process_candidate_reply ("ok then") "cand@y" "hr2" classifierAgree
        true gatewaySendNew ⟨20, 16, 30⟩ 50 []).calls[1]?
      = some (.createEvent ("Interview with cand@y") ⟨21, 10, 0⟩ ⟨21, 11, 0⟩ ["cand@y"]) :=
  (C8_scheduling_defaults ("ok then") "cand@y" "hr2" classifierAgree true
    gatewaySendNew ⟨20, 16, 30⟩ 50 []
    { agrees_to_schedule := true, confirm_datetime := none,
      confidence_score := mkRat 9 10,
      suggested_action := "schedule_interview", explanation := "ok" }
    (by decide) (by decide) (by decide)).1 (by decide)

/-! ## C9 — plain-text extraction -/

/-- C9 counterexample: with a first `text/plain` part whose data fails to
decode and a second that decodes fine, extraction raises (result `none`)
instead of dropping the bad part and returning the rest — extraction of the
remaining parts is aborted, contrary to the claim. -/
theorem C9_counterexample :
    decodeStub ("GOOD") = some ("GOOD") ∧
    extract_email_content decodeStub
        ⟨some ⟨some [{ mimeType := "text/plain", data := "BAD" },
                     { mimeType := "text/plain", data := "GOOD" }], none⟩⟩
      = none := by
  decide

/-- C9 amended: over a multi-part payload, when every `text/plain` part with
nonempty data decodes, the extracted body is their decodings concatenated in
order (parts with empty or absent data are skipped); but if any such part
fails to decode, the whole extraction raises (`none`) — the remaining parts
are not extracted, and the caller handles the exception at thread level. -/
theorem C9_extraction_concatenates_or_aborts (decode : String → Option String)
    (parts : List EmailPart) (body : Option String) :
    extract_email_content decode { payload := some { parts := some parts, body := body } }
      = if all_parts_decodable decode parts = true
        then some ((text_plain_pieces decode parts).foldl (fun x y => x ++ y) "")
        else none := by
  unfold extract_email_content
  exact extract_parts_loop_eq decode parts ("")

/-! ## C10 — only the latest reply is processed -/

/-- C10: the reply examined by the watcher is exactly the mailbox's last
message; processing a new reply hands exactly that one content to the
classifier (intermediate replies are never fetched, classified or
concatenated); afterwards the thread's rows carry the newest id as marker,
and re-running the per-thread body against the unchanged mailbox does
nothing — so the skipped intermediate replies can never be processed. -/
theorem C10_only_latest_reply (mailbox : String → List Message)
    (classify : String → Option Analysis) (calendar_ok : Bool)
    (send : String → String → Option String) (now : DateTime)
    (ts : Nat) (thread : MonitoredThread) (db : List MonitoredThread) (m : Message)
    (hrep : check_email_replies (mailbox thread.thread_id) = some m)
    (hnew : ¬ thread.last_message_id = some m.id) :
    ((mailbox thread.thread_id).getLast? = some m) ∧
    classified_texts
        (process_thread mailbox classify calendar_ok send now ts thread db).2
      = [m.content] ∧
    (∀ t' ∈ (process_thread mailbox classify calendar_ok send now ts thread db).1,
        t'.thread_id = thread.thread_id → t'.last_message_id = some m.id) ∧
    process_thread mailbox classify calendar_ok send now ts
        { thread with last_message_id := some m.id }
        (process_thread mailbox classify calendar_ok send now ts thread db).1
      = ((process_thread mailbox classify calendar_ok send now ts thread db).1, []) := by
  refine ⟨?_, ?_, ?_, ?_⟩
  · unfold check_email_replies at hrep
    by_cases hl : (mailbox thread.thread_id).length ≤ 1
    · rw [if_pos hl] at hrep
      exact absurd hrep (by simp)
    · rwa [if_neg hl] at hrep
  · rw [process_thread_new_snd mailbox classify calendar_ok send now ts thread db m
      hrep hnew]
    have h2 := classified_texts_process m.content thread.candidate_email
      thread.hr_telegram_id classify calendar_ok send now ts db
    unfold classified_texts at h2 ⊢
    rw [List.filterMap_append, h2]
    rfl
  · rw [process_thread_new_fst mailbox classify calendar_ok send now ts thread db m
      hrep hnew]
    exact update_thread_message_id_marker _ _ _ _
  · exact process_thread_skip _ _ _ _ _ _ _ _ _ hrep rfl

/-- Witness for `C10_only_latest_reply`: with three messages in the mailbox
and marker `"m1"`, only the newest content `"reply three"` is classified —
the intermediate `"reply two"` never is — and a re-run is a no-op. -/
theorem C10_only_latest_reply_witness :
    classified_texts (process_thread mailboxTwoReplies classifierAmbiguous true
        gatewaySendNew ⟨0, 9, 0⟩ 60 (mkThread ("t1") "c@x" "hr1" 100 (some ("m1")))
        [mkThread ("t1") "c@x" "hr1" 100 (some ("m1"))]).2 = ["reply three"] ∧
    (mailboxTwoReplies ("t1")).getLast? = some { id := "m3", content := "reply three" } :=
  have h := C10_only_latest_reply mailboxTwoReplies classifierAmbiguous true
    gatewaySendNew ⟨0, 9, 0⟩ 60 (mkThread ("t1") "c@x" "hr1" 100 (some ("m1")))
    [mkThread ("t1") "c@x" "hr1" 100 (some ("m1"))]
    { id := "m3", content := "reply three" } (by decide) (by decide)
  ⟨h.2.1, h.1⟩

end Javis
